import Mathlib

/-!
Verification development for the TDECat dashboard (APP.py).

The embedded fragments are the numeric/classification transforms of the
source: the AB-magnitude-to-flux conversion, the Swift Vega-to-AB
zero-point lookup, the X-ray detection/upper-limit classifier driven by
an SNR threshold, and the spectrum rest-frame wavelength transform.
Table cell values are modelled as rationals (the source works with
floating-point numbers; the claims under study are order/equality
properties that do not depend on rounding), missing values as `Option`.
-/

/-- One row of a per-object X-ray light-curve file, after the column
extraction of APP.py lines 306-331: mid-MJD, raw source flux with
asymmetric errors, SNR, upper-limit flux, per-model (power-law and
blackbody) fitted fluxes with asymmetric errors, and the free-text
best-model label (`none` models a NaN cell). -/
structure XrayRecord where
  mjd : ℚ
  src_flux : ℚ
  src_err_lo : ℚ
  src_err_hi : ℚ
  src_snr : ℚ
  src_ul : ℚ
  flux_fit_pl : ℚ
  fit_pl_err_lo : ℚ
  fit_pl_err_hi : ℚ
  flux_fit_bb : ℚ
  fit_bb_err_lo : ℚ
  fit_bb_err_hi : ℚ
  best_model : Option String
  deriving DecidableEq, Repr

/-- Upper-casing of a string, character by character, modelling the
pandas `.str.upper()` call of APP.py line 327. -/
def pyUpper (s : String) : String := String.mk (s.data.map Char.toUpper)

/-- Removal of leading and trailing whitespace, modelling the pandas
`.str.strip()` call of APP.py line 328. -/
def pyStrip (s : String) : String :=
  String.mk (((s.data.dropWhile Char.isWhitespace).reverse.dropWhile
    Char.isWhitespace).reverse)

/-- Normalized best-model label, embedding
`dfl_xray['best_model'].fillna("").astype(str).str.upper().str.strip()`
(APP.py lines 323-330). -/
def best_model_raw (r : XrayRecord) : String :=
  pyStrip (pyUpper (r.best_model.getD ""))

/-- Upper-limit mask, embedding APP.py line 334:
`ul_mask = (src_flux == 0) | (src_snr < snr_threshold)`. -/
def ul_mask (t : ℚ) (r : XrayRecord) : Bool :=
  decide (r.src_flux = 0) || decide (r.src_snr < t)

/-- Detection mask, embedding APP.py line 335:
`det_mask = (src_snr >= snr_threshold) & (~ul_mask)`. -/
def det_mask (t : ℚ) (r : XrayRecord) : Bool :=
  decide (t ≤ r.src_snr) && !(ul_mask t r)

/-- Power-law subgroup mask, embedding APP.py line 338:
`pl_mask = det_mask & (best_model_raw == 'PL')`. -/
def pl_mask (t : ℚ) (r : XrayRecord) : Bool :=
  det_mask t r && decide (best_model_raw r = "PL")

/-- Blackbody subgroup mask, embedding APP.py line 339:
`bb_mask = det_mask & (best_model_raw == 'BB')`. -/
def bb_mask (t : ℚ) (r : XrayRecord) : Bool :=
  det_mask t r && decide (best_model_raw r = "BB")

/-- Raw-detection subgroup mask, embedding APP.py line 340:
`src_det_mask = det_mask & (best_model_raw == '')`. -/
def src_det_mask (t : ℚ) (r : XrayRecord) : Bool :=
  det_mask t r && decide (best_model_raw r = "")

/-- The four point-groups the X-ray panel plots (APP.py lines 342-362):
raw detections, power-law detections, blackbody detections, upper
limits.  Each group keeps the records selected by its mask, in input
order (numpy boolean-mask indexing is order-preserving filtering). -/
structure XrayGroups where
  src_det : List XrayRecord
  pl : List XrayRecord
  bb : List XrayRecord
  ulims : List XrayRecord
  deriving DecidableEq, Repr

/-- Classification of an X-ray record list into the four plotted
groups, embedding the mask applications of APP.py lines 342-362. -/
def classify_xray (t : ℚ) (rs : List XrayRecord) : XrayGroups where
  src_det := rs.filter (src_det_mask t)
  pl := rs.filter (pl_mask t)
  bb := rs.filter (bb_mask t)
  ulims := rs.filter (ul_mask t)

/-- Zero-point table, embedding the `zeropoints_new` dictionary of
APP.py lines 25-32: for a known filter code the pair
(Vega zero-point, AB zero-point); `none` models a KeyError. -/
def zeropoints_new (filt : String) : Option (ℚ × ℚ) :=
  if filt = "vv" then some (17.89, 17.88)
  else if filt = "bb" then some (19.11, 18.98)
  else if filt = "uu" then some (18.34, 19.36)
  else if filt = "w1" then some (17.44, 18.95)
  else if filt = "m2" then some (16.85, 18.54)
  else if filt = "w2" then some (17.38, 19.11)
  else none

/-- The six Swift UVOT filter codes recognized by the zero-point table
(APP.py lines 25-32). -/
def uvot_filter_codes : List String := ["vv", "bb", "uu", "w1", "m2", "w2"]

/-- Embedding of `swift_vega_to_ab` (APP.py lines 34-39):
`offset = zeropoints_new[filt]['ab'] - zeropoints_new[filt]['vega']`,
result `m_vega + offset`; `none` models the KeyError raised on an
unknown filter code. -/
def swift_vega_to_ab (m_vega : ℚ) (filt : String) : Option ℚ :=
  (zeropoints_new filt).map (fun zp => m_vega + (zp.2 - zp.1))

/-- Embedding of `AB_magnitude_to_flux` (APP.py lines 14-22):
`flux = 3631 * 10**(-0.4 * mag)`;
`flux_err = flux * np.log(10) * 0.4 * err`. -/
noncomputable def AB_magnitude_to_flux (mag err : ℝ) : ℝ × ℝ :=
  let flux : ℝ := 3631 * (10 : ℝ) ^ (-0.4 * mag)
  (flux, flux * Real.log 10 * 0.4 * err)

/-- Rest-frame wavelength transform, embedding APP.py line 484:
`wavelength_rest = wavelength_obs / (1.0 + z)`. -/
def restWavelength (w z : ℚ) : ℚ := w / (1 + z)

/-- Element-wise rest-frame transform of one spectrum trace, a list of
(observed wavelength, intensity) pairs: the wavelength of each sample
is divided by `1 + z`, the intensity passes through (APP.py lines
480-493). -/
def restFrameSpectrum (z : ℚ) (pts : List (ℚ × ℚ)) : List (ℚ × ℚ) :=
  pts.map (fun p => (restWavelength p.1 z, p.2))

/-- Redshift extraction with safe fallback, embedding APP.py lines
456-459: `z = float(row['Redshift']) if pd.notna(row['Redshift']) else
0.0` inside a bare `try/except` that sets `z = 0.0`.  The argument is
the parse outcome of the catalogue cell: `none` models a missing (NaN)
cell or a cell whose text `float()` cannot parse (the `except` branch);
`some q` a successfully parsed number. -/
def redshift_or_default (parsed : Option ℚ) : ℚ := parsed.getD 0

/-- One per-object X-ray light-curve table as read by
`pd.read_csv` (APP.py lines 303-330): required columns as lists of
cell values, optional columns as `Option` (absent column = `none`).
All columns of one table have the row count `nrows`. -/
structure XrayTable where
  nrows : ℕ
  mjd_start : List ℚ
  mjd_stop : List ℚ
  src_flux : List ℚ
  src_flux_errinf : List ℚ
  src_flux_errsup : List ℚ
  src_flux_SNR : Option (List ℚ)
  src_flux_UL : Option (List ℚ)
  flux_fit_pl : Option (List ℚ)
  flux_fit_pl_errinf : Option (List ℚ)
  flux_fit_pl_errsup : Option (List ℚ)
  flux_fit_bb : Option (List ℚ)
  flux_fit_bb_errinf : Option (List ℚ)
  flux_fit_bb_errsup : Option (List ℚ)
  best_model : List (Option String)
  deriving DecidableEq, Repr

/-- Optional-column extraction, embedding APP.py lines 312-321: a
present column is used as is, an absent one is replaced by a column of
zeros of the table's length (`np.zeros(len(dfl_xray))` /
`pd.Series(0, index=dfl_xray.index)`). -/
def colD (n : ℕ) (c : Option (List ℚ)) : List ℚ :=
  c.getD (List.replicate n 0)

/-- Row `i` of the table assembled into one record, embedding the
column extraction of APP.py lines 306-331 (mid-MJD on line 306). -/
def recordAt (tb : XrayTable) (i : ℕ) : XrayRecord where
  mjd := ((tb.mjd_start.getD i 0) + (tb.mjd_stop.getD i 0)) / 2
  src_flux := tb.src_flux.getD i 0
  src_err_lo := tb.src_flux_errinf.getD i 0
  src_err_hi := tb.src_flux_errsup.getD i 0
  src_snr := (colD tb.nrows tb.src_flux_SNR).getD i 0
  src_ul := (colD tb.nrows tb.src_flux_UL).getD i 0
  flux_fit_pl := (colD tb.nrows tb.flux_fit_pl).getD i 0
  fit_pl_err_lo := (colD tb.nrows tb.flux_fit_pl_errinf).getD i 0
  fit_pl_err_hi := (colD tb.nrows tb.flux_fit_pl_errsup).getD i 0
  flux_fit_bb := (colD tb.nrows tb.flux_fit_bb).getD i 0
  fit_bb_err_lo := (colD tb.nrows tb.flux_fit_bb_errinf).getD i 0
  fit_bb_err_hi := (colD tb.nrows tb.flux_fit_bb_errsup).getD i 0
  best_model := (tb.best_model.getD i none)

/-- The record list of a table: one record per row. -/
def tableRecords (tb : XrayTable) : List XrayRecord :=
  (List.range tb.nrows).map (recordAt tb)

/-- A detection record whose best-model label normalizes to "APEC":
source flux 1, SNR 10, a label that is neither "PL", "BB" nor empty. -/
def rOtherLabel : XrayRecord :=
  { mjd := 0, src_flux := 1, src_err_lo := 0, src_err_hi := 0,
    src_snr := 10, src_ul := 0,
    flux_fit_pl := 0, fit_pl_err_lo := 0, fit_pl_err_hi := 0,
    flux_fit_bb := 0, fit_bb_err_lo := 0, fit_bb_err_hi := 0,
    best_model := some "APEC" }

/-- A record with zero source flux and a huge SNR of 1000. -/
def rZeroFlux : XrayRecord :=
  { mjd := 0, src_flux := 0, src_err_lo := 0, src_err_hi := 0,
    src_snr := 1000, src_ul := 2,
    flux_fit_pl := 0, fit_pl_err_lo := 0, fit_pl_err_hi := 0,
    flux_fit_bb := 0, fit_bb_err_lo := 0, fit_bb_err_hi := 0,
    best_model := none }

/-- A detection record: source flux 1, SNR 5, power-law best model. -/
def rDetPL : XrayRecord :=
  { mjd := 0, src_flux := 1, src_err_lo := 0, src_err_hi := 0,
    src_snr := 5, src_ul := 0,
    flux_fit_pl := 3, fit_pl_err_lo := 1, fit_pl_err_hi := 1,
    flux_fit_bb := 0, fit_bb_err_lo := 0, fit_bb_err_hi := 0,
    best_model := some "PL" }

/-- A one-row X-ray table with every optional column absent. -/
def tbAllMissing : XrayTable :=
  { nrows := 1, mjd_start := [5], mjd_stop := [7],
    src_flux := [4], src_flux_errinf := [1], src_flux_errsup := [1],
    src_flux_SNR := none, src_flux_UL := none,
    flux_fit_pl := none, flux_fit_pl_errinf := none, flux_fit_pl_errsup := none,
    flux_fit_bb := none, flux_fit_bb_errinf := none, flux_fit_bb_errsup := none,
    best_model := [none] }

lemma ul_mask_iff (t : ℚ) (r : XrayRecord) :
    ul_mask t r = true ↔ r.src_flux = 0 ∨ r.src_snr < t := by
  simp [ul_mask]

lemma det_mask_iff (t : ℚ) (r : XrayRecord) :
    det_mask t r = true ↔ t ≤ r.src_snr ∧ r.src_flux ≠ 0 := by
  simp [det_mask, ul_mask, not_or, not_lt]
  tauto

lemma pl_mask_iff (t : ℚ) (r : XrayRecord) :
    pl_mask t r = true ↔ det_mask t r = true ∧ best_model_raw r = "PL" := by
  simp [pl_mask]

lemma bb_mask_iff (t : ℚ) (r : XrayRecord) :
    bb_mask t r = true ↔ det_mask t r = true ∧ best_model_raw r = "BB" := by
  simp [bb_mask]

lemma src_det_mask_iff (t : ℚ) (r : XrayRecord) :
    src_det_mask t r = true ↔ det_mask t r = true ∧ best_model_raw r = "" := by
  simp [src_det_mask]

lemma det_not_ul (t : ℚ) (r : XrayRecord) (h : det_mask t r = true) :
    ul_mask t r = false := by
  rcases det_mask_iff t r |>.mp h with ⟨hle, hne⟩
  simp [ul_mask, hne, not_lt, hle]

lemma ul_or_det (t : ℚ) (r : XrayRecord) :
    ul_mask t r = true ∨ det_mask t r = true := by
  by_cases h : ul_mask t r = true
  · exact Or.inl h
  · refine Or.inr (det_mask_iff t r |>.mpr ?_)
    rw [ul_mask_iff, not_or, not_lt] at h
    exact ⟨h.2, h.1⟩

lemma mem_classify_src_det (t : ℚ) (rs : List XrayRecord) (r : XrayRecord) :
    r ∈ (classify_xray t rs).src_det ↔ r ∈ rs ∧ src_det_mask t r = true := by
  simp [classify_xray, List.mem_filter]

lemma mem_classify_pl (t : ℚ) (rs : List XrayRecord) (r : XrayRecord) :
    r ∈ (classify_xray t rs).pl ↔ r ∈ rs ∧ pl_mask t r = true := by
  simp [classify_xray, List.mem_filter]

lemma mem_classify_bb (t : ℚ) (rs : List XrayRecord) (r : XrayRecord) :
    r ∈ (classify_xray t rs).bb ↔ r ∈ rs ∧ bb_mask t r = true := by
  simp [classify_xray, List.mem_filter]

lemma mem_classify_ulims (t : ℚ) (rs : List XrayRecord) (r : XrayRecord) :
    r ∈ (classify_xray t rs).ulims ↔ r ∈ rs ∧ ul_mask t r = true := by
  simp [classify_xray, List.mem_filter]

lemma tableRecords_ext (tb tb' : XrayTable) (hn : tb.nrows = tb'.nrows)
    (h : ∀ i, recordAt tb i = recordAt tb' i) :
    tableRecords tb = tableRecords tb' := by
  unfold tableRecords
  rw [hn]
  exact List.map_congr_left (fun i _ => h i)

/-- C1: the X-ray classification is NOT a total partition as claimed:
at threshold 3, the record `rOtherLabel` (source flux 1, SNR 10,
best-model label "APEC") is a detection, yet it lands in none of the
four output groups, because the code routes only the detections whose
normalized label is exactly "PL", "BB" or empty. -/
theorem xray_partition_total_counterexample :
    (0 : ℚ) ≤ 3 ∧ rOtherLabel ∈ [rOtherLabel] ∧
    det_mask 3 rOtherLabel = true ∧
    rOtherLabel ∉ (classify_xray 3 [rOtherLabel]).src_det ∧
    rOtherLabel ∉ (classify_xray 3 [rOtherLabel]).pl ∧
    rOtherLabel ∉ (classify_xray 3 [rOtherLabel]).bb ∧
    rOtherLabel ∉ (classify_xray 3 [rOtherLabel]).ulims := by
  decide

/-- C1 (amended): every record is an upper limit or a detection;
upper limits land in the upper-limit group; a detection goes to the
power-law, blackbody, or raw-detection group when its normalized
best-model label is "PL", "BB", or empty respectively; a record lands
in some group exactly when it is an upper limit or its normalized
label is "PL", "BB" or empty — so a detection with any other nonempty
label lands in no group. -/
theorem xray_partition_amended (t : ℚ) (rs : List XrayRecord)
    (r : XrayRecord) (ht : 0 ≤ t) (hr : r ∈ rs) :
    (ul_mask t r = true ∨ det_mask t r = true) ∧
    (ul_mask t r = true → r ∈ (classify_xray t rs).ulims) ∧
    (det_mask t r = true → best_model_raw r = "PL" →
      r ∈ (classify_xray t rs).pl) ∧
    (det_mask t r = true → best_model_raw r = "BB" →
      r ∈ (classify_xray t rs).bb) ∧
    (det_mask t r = true → best_model_raw r = "" →
      r ∈ (classify_xray t rs).src_det) ∧
    ((r ∈ (classify_xray t rs).ulims ∨ r ∈ (classify_xray t rs).pl ∨
      r ∈ (classify_xray t rs).bb ∨ r ∈ (classify_xray t rs).src_det) ↔
     (ul_mask t r = true ∨ best_model_raw r = "PL" ∨
      best_model_raw r = "BB" ∨ best_model_raw r = "")) := by
  refine ⟨ul_or_det t r,
    fun h => (mem_classify_ulims t rs r).mpr ⟨hr, h⟩,
    fun hd hl => (mem_classify_pl t rs r).mpr
      ⟨hr, (pl_mask_iff t r).mpr ⟨hd, hl⟩⟩,
    fun hd hl => (mem_classify_bb t rs r).mpr
      ⟨hr, (bb_mask_iff t r).mpr ⟨hd, hl⟩⟩,
    fun hd hl => (mem_classify_src_det t rs r).mpr
      ⟨hr, (src_det_mask_iff t r).mpr ⟨hd, hl⟩⟩, ?_, ?_⟩
  · rintro (h | h | h | h)
    · exact Or.inl ((mem_classify_ulims t rs r).mp h).2
    · exact Or.inr (Or.inl
        ((pl_mask_iff t r).mp ((mem_classify_pl t rs r).mp h).2).2)
    · exact Or.inr (Or.inr (Or.inl
        ((bb_mask_iff t r).mp ((mem_classify_bb t rs r).mp h).2).2))
    · exact Or.inr (Or.inr (Or.inr
        ((src_det_mask_iff t r).mp ((mem_classify_src_det t rs r).mp h).2).2))
  · rintro (h | h | h | h)
    · exact Or.inl ((mem_classify_ulims t rs r).mpr ⟨hr, h⟩)
    · rcases ul_or_det t r with hu | hd
      · exact Or.inl ((mem_classify_ulims t rs r).mpr ⟨hr, hu⟩)
      · exact Or.inr (Or.inl ((mem_classify_pl t rs r).mpr
          ⟨hr, (pl_mask_iff t r).mpr ⟨hd, h⟩⟩))
    · rcases ul_or_det t r with hu | hd
      · exact Or.inl ((mem_classify_ulims t rs r).mpr ⟨hr, hu⟩)
      · exact Or.inr (Or.inr (Or.inl ((mem_classify_bb t rs r).mpr
          ⟨hr, (bb_mask_iff t r).mpr ⟨hd, h⟩⟩)))
    · rcases ul_or_det t r with hu | hd
      · exact Or.inl ((mem_classify_ulims t rs r).mpr ⟨hr, hu⟩)
      · exact Or.inr (Or.inr (Or.inr ((mem_classify_src_det t rs r).mpr
          ⟨hr, (src_det_mask_iff t r).mpr ⟨hd, h⟩⟩)))

/-- C1 (amended) witness at a concrete input: the PL-labelled
detection `rDetPL` is routed to the power-law group at threshold 3. -/
theorem xray_partition_amended_witness :
    rDetPL ∈ (classify_xray 3 [rDetPL]).pl :=
  (xray_partition_amended 3 [rDetPL] rDetPL (by decide)
    (by decide)).2.2.1 (by decide) (by decide)

/-- C2: a record with zero source flux is always classified as an
upper limit (and never as a detection), whatever its SNR: the
zero-flux disjunct of the upper-limit mask takes precedence over the
SNR comparison. -/
theorem zero_flux_always_upper_limit (t : ℚ) (rs : List XrayRecord)
    (r : XrayRecord) (ht : 0 ≤ t) (hr : r ∈ rs) (hf : r.src_flux = 0) :
    ul_mask t r = true ∧ det_mask t r = false ∧
    r ∈ (classify_xray t rs).ulims := by
  have hul : ul_mask t r = true := (ul_mask_iff t r).mpr (Or.inl hf)
  exact ⟨hul, by simp [det_mask, hul],
    (mem_classify_ulims t rs r).mpr ⟨hr, hul⟩⟩

/-- C2 witness: the zero-flux record `rZeroFlux` with SNR 1000 is an
upper limit at threshold 3. -/
theorem zero_flux_always_upper_limit_witness :
    rZeroFlux.src_flux = 0 ∧ rZeroFlux.src_snr = 1000 ∧
    ul_mask 3 rZeroFlux = true ∧ det_mask 3 rZeroFlux = false ∧
    rZeroFlux ∈ (classify_xray 3 [rZeroFlux]).ulims :=
  ⟨by decide, by decide,
    zero_flux_always_upper_limit 3 [rZeroFlux] rZeroFlux (by decide)
      (by decide) (by decide)⟩

/-- C3: classification is monotone in the threshold: a detection at
the larger threshold is a detection at the smaller one, and an upper
limit at the smaller threshold is an upper limit at the larger one. -/
theorem snr_threshold_monotone (r : XrayRecord) (t1 t2 : ℚ)
    (h12 : t1 ≤ t2) :
    (det_mask t2 r = true → det_mask t1 r = true) ∧
    (ul_mask t1 r = true → ul_mask t2 r = true) := by
  constructor
  · intro h
    rcases (det_mask_iff t2 r).mp h with ⟨hle, hne⟩
    exact (det_mask_iff t1 r).mpr ⟨le_trans h12 hle, hne⟩
  · intro h
    rcases (ul_mask_iff t1 r).mp h with hf | hlt
    · exact (ul_mask_iff t2 r).mpr (Or.inl hf)
    · exact (ul_mask_iff t2 r).mpr (Or.inr (lt_of_lt_of_le hlt h12))

/-- C3 witness: at thresholds 2 ≤ 3, the detection `rDetPL` (SNR 5)
stays a detection when lowering the threshold, and the upper limit
`rZeroFlux` stays an upper limit when raising it. -/
theorem snr_threshold_monotone_witness :
    det_mask 2 rDetPL = true ∧ ul_mask 3 rZeroFlux = true :=
  ⟨(snr_threshold_monotone rDetPL 2 3 (by decide)).1 (by decide),
   (snr_threshold_monotone rZeroFlux 2 3 (by decide)).2 (by decide)⟩

/-- C4: the detection mask, literally
(snr >= t) AND NOT ((src_flux == 0) OR (snr < t)), is logically
equivalent to (snr >= t) AND (src_flux != 0). -/
theorem det_predicate_equiv (t : ℚ) (r : XrayRecord) :
    (det_mask t r = true ↔
      t ≤ r.src_snr ∧ ¬(r.src_flux = 0 ∨ r.src_snr < t)) ∧
    (det_mask t r = true ↔ t ≤ r.src_snr ∧ r.src_flux ≠ 0) := by
  constructor
  · simp [det_mask, ul_mask, not_or]
  · exact det_mask_iff t r

/-- C4 witness: the equivalence applied at the concrete detection
`rDetPL` and threshold 3. -/
theorem det_predicate_equiv_witness : det_mask 3 rDetPL = true :=
  (det_predicate_equiv 3 rDetPL).2.mpr (by decide)

/-- C5: `swift_vega_to_ab` on each of the six recognized filter codes
returns exactly the Vega magnitude plus (AB zero-point − Vega
zero-point) from the fixed table, and it fails (returns `none`,
modelling the KeyError) exactly on filter codes outside the six. -/
theorem swift_vega_to_ab_spec (m : ℚ) :
    swift_vega_to_ab m "vv" = some (m + (17.88 - 17.89)) ∧
    swift_vega_to_ab m "bb" = some (m + (18.98 - 19.11)) ∧
    swift_vega_to_ab m "uu" = some (m + (19.36 - 18.34)) ∧
    swift_vega_to_ab m "w1" = some (m + (18.95 - 17.44)) ∧
    swift_vega_to_ab m "m2" = some (m + (18.54 - 16.85)) ∧
    swift_vega_to_ab m "w2" = some (m + (19.11 - 17.38)) ∧
    (∀ filt : String, filt ∉ uvot_filter_codes →
      swift_vega_to_ab m filt = none) ∧
    (∀ filt : String, filt ∈ uvot_filter_codes →
      (swift_vega_to_ab m filt).isSome) := by
  refine ⟨rfl, rfl, rfl, rfl, rfl, rfl, ?_, ?_⟩
  · intro filt h
    simp [uvot_filter_codes] at h
    obtain ⟨h1, h2, h3, h4, h5, h6⟩ := h
    simp [swift_vega_to_ab, zeropoints_new, h1, h2, h3, h4, h5, h6]
  · intro filt h
    simp [uvot_filter_codes] at h
    rcases h with rfl | rfl | rfl | rfl | rfl | rfl <;> rfl

/-- C5 witness: the unknown filter code "xx" is rejected and the known
code "vv" is accepted. -/
theorem swift_vega_to_ab_spec_witness :
    "xx" ∉ uvot_filter_codes ∧ swift_vega_to_ab 0 "xx" = none ∧
    (swift_vega_to_ab 0 "vv").isSome :=
  ⟨by decide,
   (swift_vega_to_ab_spec 0).2.2.2.2.2.2.1 "xx" (by decide),
   (swift_vega_to_ab_spec 0).2.2.2.2.2.2.2 "vv" (by decide)⟩

/-- C6: for every finite mag and err, `AB_magnitude_to_flux` returns
flux = 3631·10^(−0.4·mag) and flux_err = flux·ln(10)·0.4·err; in
particular it maps (0, 0) to (3631, 0). -/
theorem AB_magnitude_to_flux_spec :
    (∀ mag err : ℝ, AB_magnitude_to_flux mag err =
      (3631 * (10 : ℝ) ^ (-0.4 * mag),
       3631 * (10 : ℝ) ^ (-0.4 * mag) * Real.log 10 * 0.4 * err)) ∧
    AB_magnitude_to_flux 0 0 = (3631, 0) := by
  refine ⟨fun mag err => rfl, ?_⟩
  simp [AB_magnitude_to_flux]

/-- C7: the rest-frame transform divides each observed wavelength by
1 + z — the identity at z = 0, and 6562.8 ↦ 3281.4 at z = 1 — while
the intensity of every spectrum sample passes through unchanged. -/
theorem restWavelength_spec :
    (∀ w : ℚ, restWavelength w 0 = w) ∧
    restWavelength 6562.8 1 = 3281.4 ∧
    (∀ (z : ℚ) (pts : List (ℚ × ℚ)),
      (restFrameSpectrum z pts).map Prod.snd = pts.map Prod.snd ∧
      (restFrameSpectrum z pts).map Prod.fst =
        pts.map (fun p => restWavelength p.1 z)) := by
  refine ⟨fun w => by simp [restWavelength], by norm_num [restWavelength],
    fun z pts => ⟨?_, ?_⟩⟩
  · simp [restFrameSpectrum]
  · simp [restFrameSpectrum]

/-- C8: classification of a table with an absent optional column (SNR,
upper-limit flux, or any per-model fitted flux/error column) is
exactly the classification of the same table with that column present
and all-zero; absence is total, not an error, in the embedding. -/
theorem missing_optional_column_as_zero (t : ℚ) (tb : XrayTable) :
    (tb.src_flux_SNR = none →
      classify_xray t (tableRecords tb) = classify_xray t (tableRecords
        { tb with src_flux_SNR := some (List.replicate tb.nrows 0) })) ∧
    (tb.src_flux_UL = none →
      classify_xray t (tableRecords tb) = classify_xray t (tableRecords
        { tb with src_flux_UL := some (List.replicate tb.nrows 0) })) ∧
    (tb.flux_fit_pl = none →
      classify_xray t (tableRecords tb) = classify_xray t (tableRecords
        { tb with flux_fit_pl := some (List.replicate tb.nrows 0) })) ∧
    (tb.flux_fit_pl_errinf = none →
      classify_xray t (tableRecords tb) = classify_xray t (tableRecords
        { tb with flux_fit_pl_errinf := some (List.replicate tb.nrows 0) })) ∧
    (tb.flux_fit_pl_errsup = none →
      classify_xray t (tableRecords tb) = classify_xray t (tableRecords
        { tb with flux_fit_pl_errsup := some (List.replicate tb.nrows 0) })) ∧
    (tb.flux_fit_bb = none →
      classify_xray t (tableRecords tb) = classify_xray t (tableRecords
        { tb with flux_fit_bb := some (List.replicate tb.nrows 0) })) ∧
    (tb.flux_fit_bb_errinf = none →
      classify_xray t (tableRecords tb) = classify_xray t (tableRecords
        { tb with flux_fit_bb_errinf := some (List.replicate tb.nrows 0) })) ∧
    (tb.flux_fit_bb_errsup = none →
      classify_xray t (tableRecords tb) = classify_xray t (tableRecords
        { tb with flux_fit_bb_errsup := some (List.replicate tb.nrows 0) })) := by
  refine ⟨?_, ?_, ?_, ?_, ?_, ?_, ?_, ?_⟩ <;> intro h <;>
    (refine congrArg (classify_xray t) (tableRecords_ext _ _ rfl fun i => ?_);
     simp [recordAt, colD, h])

/-- C8 witness: a one-row table with all optional columns absent
classifies the same as its zero-filled completions, column by
column. -/
theorem missing_optional_column_as_zero_witness :
    classify_xray 3 (tableRecords tbAllMissing) = classify_xray 3
      (tableRecords { tbAllMissing with
        src_flux_SNR := some (List.replicate tbAllMissing.nrows 0) }) ∧
    classify_xray 3 (tableRecords tbAllMissing) = classify_xray 3
      (tableRecords { tbAllMissing with
        src_flux_UL := some (List.replicate tbAllMissing.nrows 0) }) ∧
    classify_xray 3 (tableRecords tbAllMissing) = classify_xray 3
      (tableRecords { tbAllMissing with
        flux_fit_pl := some (List.replicate tbAllMissing.nrows 0) }) ∧
    classify_xray 3 (tableRecords tbAllMissing) = classify_xray 3
      (tableRecords { tbAllMissing with
        flux_fit_pl_errinf := some (List.replicate tbAllMissing.nrows 0) }) ∧
    classify_xray 3 (tableRecords tbAllMissing) = classify_xray 3
      (tableRecords { tbAllMissing with
        flux_fit_pl_errsup := some (List.replicate tbAllMissing.nrows 0) }) ∧
    classify_xray 3 (tableRecords tbAllMissing) = classify_xray 3
      (tableRecords { tbAllMissing with
        flux_fit_bb := some (List.replicate tbAllMissing.nrows 0) }) ∧
    classify_xray 3 (tableRecords tbAllMissing) = classify_xray 3
      (tableRecords { tbAllMissing with
        flux_fit_bb_errinf := some (List.replicate tbAllMissing.nrows 0) }) ∧
    classify_xray 3 (tableRecords tbAllMissing) = classify_xray 3
      (tableRecords { tbAllMissing with
        flux_fit_bb_errsup := some (List.replicate tbAllMissing.nrows 0) }) :=
  ⟨(missing_optional_column_as_zero 3 tbAllMissing).1 rfl,
   (missing_optional_column_as_zero 3 tbAllMissing).2.1 rfl,
   (missing_optional_column_as_zero 3 tbAllMissing).2.2.1 rfl,
   (missing_optional_column_as_zero 3 tbAllMissing).2.2.2.1 rfl,
   (missing_optional_column_as_zero 3 tbAllMissing).2.2.2.2.1 rfl,
   (missing_optional_column_as_zero 3 tbAllMissing).2.2.2.2.2.1 rfl,
   (missing_optional_column_as_zero 3 tbAllMissing).2.2.2.2.2.2.1 rfl,
   (missing_optional_column_as_zero 3 tbAllMissing).2.2.2.2.2.2.2 rfl⟩

/-- C9: when the catalogue redshift cell is missing or unparseable
(parse outcome `none`), the fallback redshift is 0 and the rest-frame
transform leaves every plotted wavelength equal to its observed
value (and every intensity unchanged). -/
theorem redshift_fallback_to_zero :
    redshift_or_default none = 0 ∧
    (∀ pts : List (ℚ × ℚ),
      restFrameSpectrum (redshift_or_default none) pts = pts) := by
  refine ⟨rfl, fun pts => ?_⟩
  simp [restFrameSpectrum, restWavelength, redshift_or_default]

/-- C10: the four output groups are pairwise disjoint for every
threshold, record list, and best-model label: no record is in two
groups at once. -/
theorem xray_groups_pairwise_disjoint (t : ℚ) (rs : List XrayRecord)
    (r : XrayRecord) :
    ¬(r ∈ (classify_xray t rs).ulims ∧ r ∈ (classify_xray t rs).src_det) ∧
    ¬(r ∈ (classify_xray t rs).ulims ∧ r ∈ (classify_xray t rs).pl) ∧
    ¬(r ∈ (classify_xray t rs).ulims ∧ r ∈ (classify_xray t rs).bb) ∧
    ¬(r ∈ (classify_xray t rs).src_det ∧ r ∈ (classify_xray t rs).pl) ∧
    ¬(r ∈ (classify_xray t rs).src_det ∧ r ∈ (classify_xray t rs).bb) ∧
    ¬(r ∈ (classify_xray t rs).pl ∧ r ∈ (classify_xray t rs).bb) := by
  refine ⟨?_, ?_, ?_, ?_, ?_, ?_⟩
  · rintro ⟨h1, h2⟩
    have hd := ((src_det_mask_iff t r).mp
      ((mem_classify_src_det t rs r).mp h2).2).1
    have h3 := ((mem_classify_ulims t rs r).mp h1).2
    rw [det_not_ul t r hd] at h3
    exact Bool.noConfusion h3
  · rintro ⟨h1, h2⟩
    have hd := ((pl_mask_iff t r).mp ((mem_classify_pl t rs r).mp h2).2).1
    have h3 := ((mem_classify_ulims t rs r).mp h1).2
    rw [det_not_ul t r hd] at h3
    exact Bool.noConfusion h3
  · rintro ⟨h1, h2⟩
    have hd := ((bb_mask_iff t r).mp ((mem_classify_bb t rs r).mp h2).2).1
    have h3 := ((mem_classify_ulims t rs r).mp h1).2
    rw [det_not_ul t r hd] at h3
    exact Bool.noConfusion h3
  · rintro ⟨h1, h2⟩
    have hl1 := ((src_det_mask_iff t r).mp
      ((mem_classify_src_det t rs r).mp h1).2).2
    have hl2 := ((pl_mask_iff t r).mp ((mem_classify_pl t rs r).mp h2).2).2
    rw [hl1] at hl2
    exact absurd hl2 (by decide)
  · rintro ⟨h1, h2⟩
    have hl1 := ((src_det_mask_iff t r).mp
      ((mem_classify_src_det t rs r).mp h1).2).2
    have hl2 := ((bb_mask_iff t r).mp ((mem_classify_bb t rs r).mp h2).2).2
    rw [hl1] at hl2
    exact absurd hl2 (by decide)
  · rintro ⟨h1, h2⟩
    have hl1 := ((pl_mask_iff t r).mp ((mem_classify_pl t rs r).mp h1).2).2
    have hl2 := ((bb_mask_iff t r).mp ((mem_classify_bb t rs r).mp h2).2).2
    rw [hl1] at hl2
    exact absurd hl2 (by decide)

/-- C10 witness: the disjointness applied at a concrete threshold,
record list, and record. -/
theorem xray_groups_pairwise_disjoint_witness :
    ¬(rDetPL ∈ (classify_xray 3 [rDetPL]).ulims ∧
      rDetPL ∈ (classify_xray 3 [rDetPL]).src_det) :=
  (xray_groups_pairwise_disjoint 3 [rDetPL] rDetPL).1
